import Mathlib

/-!
Verification of the book-catalog browser core: the filter engine
(`filterBooks`), the pagination controller (`updateShowMoreButton`,
`showMoreBooks`), the lookup service (`findBookById`) and the
application-controller session state (`BookApp`), shallowly embedded
from `src/utils.js` and `src/scripts.js`.
-/

namespace BookCatalog

/-- A book record as used by the code: `id`, `title`, `author` (author id),
`genres` (list of genre ids), plus the presentation fields `image`,
`description`, `published`. -/
structure Book where
  id : String
  title : String
  author : String
  genres : List String
  image : String
  description : String
  published : String
deriving Repr, DecidableEq

/-- A fully-populated filter criteria object, as produced by the search form:
every field present as a string. -/
structure Filters where
  title : String
  author : String
  genre : String
deriving Repr, DecidableEq

/-- Does the character list `q` occur at the head of `s`?  Embeds the
leading-match step of JavaScript substring search. -/
def leadsWith : List Char → List Char → Bool
  | [], _ => true
  | _ :: _, [] => false
  | a :: as, b :: bs => a == b && leadsWith as bs

/-- Does the character list `q` occur contiguously anywhere inside `s`?
Embeds JavaScript `String.prototype.includes`. -/
def occursIn (q : List Char) : List Char → Bool
  | [] => leadsWith q []
  | s@(_ :: rest) => leadsWith q s || occursIn q rest

/-- JavaScript `s.includes(q)`: substring containment on strings. -/
def jsIncludes (s q : String) : Bool :=
  occursIn q.data s.data

/-- Drop leading whitespace characters. -/
def dropLeadingWs : List Char → List Char
  | [] => []
  | c :: rest => if c.isWhitespace then dropLeadingWs rest else c :: rest

/-- JavaScript `s.trim()`: remove whitespace from both ends. -/
def jsTrim (s : String) : String :=
  ⟨(dropLeadingWs (dropLeadingWs s.data.reverse).reverse)⟩

/-- JavaScript `s.toLowerCase()` (ASCII case mapping, as all data here is
ASCII): lower-case every character. -/
def jsToLower (s : String) : String :=
  ⟨s.data.map Char.toLower⟩

/-- `genreMatch` from `filterBooks` (src/utils.js line 77):
`filters.genre === "any" || book.genres.includes(filters.genre)`. -/
def genreMatch (book : Book) (filters : Filters) : Bool :=
  filters.genre == "any" || book.genres.contains filters.genre

/-- `titleMatch` from `filterBooks` (src/utils.js line 78):
`filters.title.trim() === "" || book.title.toLowerCase().includes(filters.title.toLowerCase())`. -/
def titleMatch (book : Book) (filters : Filters) : Bool :=
  jsTrim filters.title == "" || jsIncludes (jsToLower book.title) (jsToLower filters.title)

/-- `authorMatch` from `filterBooks` (src/utils.js line 79):
`filters.author === "any" || book.author === filters.author`. -/
def authorMatch (book : Book) (filters : Filters) : Bool :=
  filters.author == "any" || book.author == filters.author

/-- `filterBooks` from src/utils.js lines 75-82: keep the books for which
all three matches hold. -/
def filterBooks (books : List Book) (filters : Filters) : List Book :=
  books.filter fun book =>
    genreMatch book filters && titleMatch book filters && authorMatch book filters

/-- `findBookById` from src/utils.js lines 91-93:
`books.find(book => book.id === id)`. -/
def findBookById (books : List Book) (id : String) : Option Book :=
  books.find? fun book => book.id == id

/-- The result of `updateShowMoreButton` (src/utils.js lines 59-66): the
`disabled` flag of the button and the remaining-count number shown in its
label. -/
structure ShowMoreButton where
  disabled : Bool
  remainingLabel : Int
deriving Repr, DecidableEq

/-- `updateShowMoreButton` from src/utils.js lines 59-66:
`remainingBooks = matchesLength - page * booksPerPage` (a JavaScript number,
so possibly negative), `button.disabled = remainingBooks <= 0`, and the label
shows `remainingBooks > 0 ? remainingBooks : 0`. -/
def updateShowMoreButton (matchesLength page booksPerPage : Nat) : ShowMoreButton :=
  let remainingBooks : Int := (matchesLength : Int) - (page : Int) * (booksPerPage : Int)
  { disabled := decide (remainingBooks ≤ 0)
    remainingLabel := if remainingBooks > 0 then remainingBooks else 0 }

/-- JavaScript `arr.slice(start, stop)` for natural indices: the elements
from index `start` (inclusive) to `stop` (exclusive), clipped to the array
length. -/
def jsSlice (l : List Book) (start stop : Nat) : List Book :=
  (l.drop start).take (stop - start)

/-- The session state owned by the `BookApp` class (src/scripts.js):
the immutable dataset `books`, the current filter result `matches`, the
current page, the page size, and the list of book cards currently rendered
in the list container (`displayed`). -/
structure BookApp where
  books : List Book
  «matches» : List Book
  page : Nat
  booksPerPage : Nat
  displayed : List Book
deriving Repr, DecidableEq

/-- The `BookApp` constructor plus `renderBooks` (src/scripts.js lines 17-49):
`page = 1`, `matches = books`, and the first `booksPerPage` matches rendered. -/
def BookApp.start (books : List Book) (booksPerPage : Nat) : BookApp :=
  { books := books
    «matches» := books
    page := 1
    booksPerPage := booksPerPage
    displayed := jsSlice books 0 booksPerPage }

/-- `handleSearch` (src/scripts.js lines 135-148): reset `page` to 1,
replace `matches` with `filterBooks(this.books, filters)`, and re-render the
list with the first `booksPerPage` matches (`renderBookList`). -/
def handleSearch (s : BookApp) (filters : Filters) : BookApp :=
  let m := filterBooks s.books filters
  { s with page := 1, «matches» := m, displayed := jsSlice m 0 s.booksPerPage }

/-- `showMoreBooks` (src/scripts.js lines 173-182): append
`matches.slice(page * booksPerPage, (page + 1) * booksPerPage)` to the
rendered list, then `page += 1`. -/
def showMoreBooks (s : BookApp) : BookApp :=
  { s with
    displayed :=
      s.displayed ++ jsSlice s.«matches» (s.page * s.booksPerPage) ((s.page + 1) * s.booksPerPage)
    page := s.page + 1 }

/-- The show-more affordance is enabled exactly when the button computed by
`updateShowMoreButton` over the current session is not disabled. -/
def canShowMore (s : BookApp) : Bool :=
  !(updateShowMoreButton s.«matches».length s.page s.booksPerPage).disabled

/-- The events the application controller handles that can touch session
state.  `cardClicked` (`showBookPreview`) and `themeSubmitted`
(`handleThemeChange`) leave the session unchanged. -/
inductive Event where
  | searchSubmitted (filters : Filters)
  | showMoreClicked
  | cardClicked (id : String)
  | themeSubmitted (night : Bool)
deriving Repr, DecidableEq

/-- Event dispatch of the application controller (`setupEventListeners`,
src/scripts.js lines 78-106). -/
def step (s : BookApp) : Event → BookApp
  | .searchSubmitted filters => handleSearch s filters
  | .showMoreClicked => showMoreBooks s
  | .cardClicked _ => s
  | .themeSubmitted _ => s

/-- Dune, the first book of the worked scenario in the spec. -/
def dune : Book :=
  { id := "1", title := "Dune", author := "a1", genres := ["sf"]
    image := "", description := "", published := "" }

/-- Hobbit, the second book of the worked scenario in the spec. -/
def hobbit : Book :=
  { id := "2", title := "Hobbit", author := "a2", genres := ["fantasy"]
    image := "", description := "", published := "" }

/-- A third concrete book, for pagination scenarios. -/
def emma : Book :=
  { id := "3", title := "Emma", author := "a3", genres := ["classic"]
    image := "", description := "", published := "" }

/-- A fourth concrete book, for pagination scenarios. -/
def ivanhoe : Book :=
  { id := "4", title := "Ivanhoe", author := "a4", genres := ["classic"]
    image := "", description := "", published := "" }

/-- A fifth concrete book, for pagination scenarios. -/
def persuasion : Book :=
  { id := "5", title := "Persuasion", author := "a3", genres := ["classic"]
    image := "", description := "", published := "" }

/-- The session reached from a four-book dataset with page size 2 after one
show-more click: all four books displayed, `page = 2`, nothing left. -/
def sessionFour : BookApp :=
  step (BookApp.start [dune, hobbit, emma, ivanhoe] 2) Event.showMoreClicked

/-- The initial session over a five-book dataset with page size 2. -/
def sessionFive : BookApp :=
  BookApp.start [dune, hobbit, emma, ivanhoe, persuasion] 2

/-- The filter-criteria predicate exactly as the specification words it:
the genre id is "any" or a member of the genre list of the book, AND the
title query trims to empty or the lower-cased title has the lower-cased
query as a contiguous substring, AND the author id is "any" or equal to the
author id of the book. -/
def specCriteriaPred (f : Filters) (b : Book) : Prop :=
  (f.genre = "any" ∨ f.genre ∈ b.genres) ∧
  (jsTrim f.title = "" ∨
    ∃ l r, l ++ (jsToLower f.title).data ++ r = (jsToLower b.title).data) ∧
  (f.author = "any" ∨ f.author = b.author)

/-- A criteria object in which any of the three fields may be absent
(JavaScript `undefined`), as reaches `filterBooks` when the form layer omits
a field. -/
structure FiltersOpt where
  title : Option String
  author : Option String
  genre : Option String
deriving Repr, DecidableEq

/-- The genre conjunct of `filterBooks` under a possibly-absent field:
`undefined === "any"` is false and `includes(undefined)` is false, so an
absent genre matches nothing; it never throws. -/
def genreMatchOpt (book : Book) (genre : Option String) : Bool :=
  match genre with
  | none => false
  | some g => g == "any" || book.genres.contains g

/-- The title conjunct of `filterBooks` under a possibly-absent field:
`filters.title.trim()` on `undefined` throws a TypeError before anything
else is evaluated. -/
def titleMatchOpt (book : Book) (title : Option String) : Except String Bool :=
  match title with
  | none => Except.error "TypeError: undefined has no method trim"
  | some t => Except.ok (jsTrim t == "" || jsIncludes (jsToLower book.title) (jsToLower t))

/-- The author conjunct of `filterBooks` under a possibly-absent field:
`undefined === "any"` is false and `book.author === undefined` is false, so
an absent author matches nothing; it never throws. -/
def authorMatchOpt (book : Book) (author : Option String) : Bool :=
  match author with
  | none => false
  | some a => a == "any" || book.author == a

/-- The per-book callback of `filterBooks` under possibly-absent fields:
all three conjuncts are evaluated (`const` bindings before the return), so a
TypeError from the title conjunct propagates. -/
def bookPredOpt (book : Book) (f : FiltersOpt) : Except String Bool := do
  let t ← titleMatchOpt book f.title
  pure (genreMatchOpt book f.genre && t && authorMatchOpt book f.author)

/-- `filterBooks` under possibly-absent criteria fields: `Array.prototype.filter`
runs the callback on each element in order, so the first thrown TypeError
aborts the whole call. -/
def filterBooksOpt : List Book → FiltersOpt → Except String (List Book)
  | [], _ => Except.ok []
  | b :: rest, f => do
    let keep ← bookPredOpt b f
    let tail ← filterBooksOpt rest f
    pure (if keep then b :: tail else tail)

theorem leadsWith_iff (q s : List Char) : leadsWith q s = true ↔ ∃ t, q ++ t = s := by
  induction q generalizing s with
  | nil => simp [leadsWith]
  | cons a as ih =>
    cases s with
    | nil => simp [leadsWith]
    | cons b bs =>
      simp only [leadsWith, Bool.and_eq_true, beq_iff_eq, ih, List.cons_append,
        List.cons.injEq]
      constructor
      · rintro ⟨rfl, t, rfl⟩
        exact ⟨t, rfl, rfl⟩
      · rintro ⟨t, rfl, rfl⟩
        exact ⟨rfl, t, rfl⟩

theorem occursIn_iff (q s : List Char) : occursIn q s = true ↔ ∃ l r, l ++ q ++ r = s := by
  induction s with
  | nil => simp [occursIn, leadsWith_iff, List.append_eq_nil]
  | cons c rest ih =>
    simp only [occursIn, Bool.or_eq_true, leadsWith_iff, ih]
    constructor
    · rintro (⟨t, ht⟩ | ⟨l, r, rfl⟩)
      · exact ⟨[], t, by simpa using ht⟩
      · exact ⟨c :: l, r, rfl⟩
    · rintro ⟨l, r, h⟩
      cases l with
      | nil =>
        exact Or.inl ⟨r, by simpa using h⟩
      | cons x xs =>
        rw [List.cons_append, List.cons_append] at h
        injection h with h1 h2
        subst h1
        exact Or.inr ⟨xs, r, by simpa using h2⟩

theorem find?_eq_head?_filter (p : Book → Bool) (l : List Book) :
    l.find? p = (l.filter p).head? := by
  induction l with
  | nil => rfl
  | cons a rest ih =>
    cases h : p a with
    | true =>
      rw [List.find?_cons_of_pos _ h, List.filter_cons_of_pos h]
      rfl
    | false =>
      rw [List.find?_cons_of_neg _ (by simp [h]), List.filter_cons_of_neg (by simp [h])]
      exact ih

theorem titleMatch_empty (b : Book) : titleMatch b { title := "", author := "any", genre := "any" } = true := by
  have h : (jsTrim "" == "") = true := by decide
  simp [titleMatch, h]

/-- Claim C5: filtering any book list with the identity criteria
(empty title query, author "any", genre "any") returns the input list
unchanged, every book kept in order. -/
theorem filterBooks_identity_criteria (books : List Book) :
    filterBooks books { title := "", author := "any", genre := "any" } = books := by
  unfold filterBooks
  induction books with
  | nil => rfl
  | cons b rest ih =>
    rw [List.filter_cons_of_pos, ih]
    simp [genreMatch, authorMatch, titleMatch_empty]

/-- Claim C8: for every prior session state and every criteria object,
processing a SearchSubmitted event sets the current page to 1, replaces the
match set with the filter result over the full dataset, re-renders the first
page of it, and leaves the dataset itself unchanged. -/
theorem handleSearch_resets_page (s : BookApp) (f : Filters) :
    (handleSearch s f).page = 1 ∧
    (handleSearch s f).«matches» = filterBooks s.books f ∧
    (handleSearch s f).books = s.books ∧
    (handleSearch s f).displayed = jsSlice (filterBooks s.books f) 0 s.booksPerPage :=
  ⟨rfl, rfl, rfl, rfl⟩

/-- Claim C4: the filter engine always returns an order-preserving
subsequence of its input; the initial session satisfies the invariant that
the match set is an order-preserving subsequence of the dataset; and every
event the application controller handles preserves that invariant while
never changing the dataset. -/
theorem session_matches_sublist_invariant :
    (∀ (books : List Book) (f : Filters), (filterBooks books f).Sublist books) ∧
    (∀ (books : List Book) (bpp : Nat),
        ((BookApp.start books bpp).«matches»).Sublist (BookApp.start books bpp).books) ∧
    (∀ (s : BookApp) (e : Event), (s.«matches»).Sublist s.books →
        (step s e).books = s.books ∧ ((step s e).«matches»).Sublist (step s e).books) := by
  refine ⟨?_, ?_, ?_⟩
  · intro books f
    exact List.filter_sublist _
  · intro books bpp
    exact List.Sublist.refl _
  · intro s e h
    cases e with
    | searchSubmitted f => exact ⟨rfl, List.filter_sublist _⟩
    | showMoreClicked => exact ⟨rfl, h⟩
    | cardClicked id => exact ⟨rfl, h⟩
    | themeSubmitted n => exact ⟨rfl, h⟩

theorem session_matches_sublist_invariant_witness :
    (step sessionFive Event.showMoreClicked).books = sessionFive.books ∧
    ((step sessionFive Event.showMoreClicked).«matches»).Sublist
      (step sessionFive Event.showMoreClicked).books :=
  session_matches_sublist_invariant.2.2 sessionFive Event.showMoreClicked
    (List.Sublist.refl _)

/-- Claim C6: for every matches length, page at least 1 and positive page
size, `updateShowMoreButton` shows the count max(0, matchesLength - page *
booksPerPage) in the label (never a negative number) and enables the button
exactly when that count is positive; in particular for 5 matches, page 1 and
page size 2 the label shows 3 and the button is enabled. -/
theorem updateShowMoreButton_remaining_spec (matchesLength page booksPerPage : Nat)
    (hpage : 1 ≤ page) (hbpp : 0 < booksPerPage) :
    (updateShowMoreButton matchesLength page booksPerPage).remainingLabel =
      max 0 ((matchesLength : Int) - (page : Int) * (booksPerPage : Int)) ∧
    ((updateShowMoreButton matchesLength page booksPerPage).disabled = false ↔
      0 < max 0 ((matchesLength : Int) - (page : Int) * (booksPerPage : Int))) ∧
    (updateShowMoreButton 5 1 2).remainingLabel = 3 ∧
    (updateShowMoreButton 5 1 2).disabled = false := by
  refine ⟨?_, ?_, by decide, by decide⟩
  · simp only [updateShowMoreButton]
    split
    · rename_i hpos
      omega
    · rename_i hneg
      omega
  · simp only [updateShowMoreButton, decide_eq_false_iff_not, not_le]
    omega

theorem updateShowMoreButton_remaining_spec_witness :
    (updateShowMoreButton 5 1 2).remainingLabel =
      max 0 (((5 : Nat) : Int) - ((1 : Nat) : Int) * ((2 : Nat) : Int)) ∧
    (updateShowMoreButton 5 1 2).disabled = false :=
  ⟨(updateShowMoreButton_remaining_spec 5 1 2 (by decide) (by decide)).1,
   (updateShowMoreButton_remaining_spec 5 1 2 (by decide) (by decide)).2.2.2⟩

/-- Claim C7: for every session in which the show-more affordance is
enabled, processing a ShowMoreClicked event appends exactly the slice
matches[page * pageSize .. (page + 1) * pageSize) (clipped to the matches
length) to the displayed set — leaving the already-rendered part untouched —
and increments the page by exactly 1, changing neither the match set nor the
dataset; the appended slice holds precisely the elements of `matches` at
those indices. -/
theorem showMoreBooks_appends_next_page (s : BookApp) (h : canShowMore s = true) :
    (showMoreBooks s).displayed =
      s.displayed ++
        jsSlice s.«matches» (s.page * s.booksPerPage) ((s.page + 1) * s.booksPerPage) ∧
    (showMoreBooks s).page = s.page + 1 ∧
    (showMoreBooks s).«matches» = s.«matches» ∧
    (showMoreBooks s).books = s.books ∧
    (∀ i : Nat, i < s.booksPerPage →
      (jsSlice s.«matches» (s.page * s.booksPerPage) ((s.page + 1) * s.booksPerPage))[i]? =
        s.«matches»[s.page * s.booksPerPage + i]?) := by
  refine ⟨rfl, rfl, rfl, rfl, ?_⟩
  intro i hi
  have hmul : (s.page + 1) * s.booksPerPage = s.page * s.booksPerPage + s.booksPerPage := by
    ring
  have hb : (s.page + 1) * s.booksPerPage - s.page * s.booksPerPage = s.booksPerPage := by
    omega
  rw [jsSlice, hb, List.getElem?_take_of_lt hi, List.getElem?_drop]

theorem showMoreBooks_appends_next_page_witness :
    canShowMore sessionFive = true ∧
    (showMoreBooks sessionFive).page = sessionFive.page + 1 ∧
    (showMoreBooks sessionFive).displayed =
      sessionFive.displayed ++
        jsSlice sessionFive.«matches» (sessionFive.page * sessionFive.booksPerPage)
          ((sessionFive.page + 1) * sessionFive.booksPerPage) :=
  ⟨by decide, (showMoreBooks_appends_next_page sessionFive (by decide)).2.1,
   (showMoreBooks_appends_next_page sessionFive (by decide)).1⟩

/-- Claim C2 counterexample: in the session reached from a four-book
dataset with page size 2 after one show-more click, the affordance is
exhausted (canShowMore is false), yet processing a further ShowMoreClicked
event does change the current page — so the event is not a no-op on the
session state as the claim requires. -/
theorem showMore_without_capacity_changes_page :
    canShowMore sessionFour = false ∧
    (step sessionFour Event.showMoreClicked).page ≠ sessionFour.page := by
  decide

/-- Claim C2 amended: when the affordance is exhausted (canShowMore false),
processing a further ShowMoreClicked event appends nothing — the displayed
set, the match set and the dataset are unchanged — but it still increments
the current page by 1; only the page counter moves, caller gating on
canShowMore is what prevents it. -/
theorem showMore_when_exhausted_appends_nothing (s : BookApp) (h : canShowMore s = false) :
    (showMoreBooks s).displayed = s.displayed ∧
    (showMoreBooks s).«matches» = s.«matches» ∧
    (showMoreBooks s).books = s.books ∧
    (showMoreBooks s).page = s.page + 1 := by
  have h1 : ((s.«matches».length : Int) - (s.page : Int) * (s.booksPerPage : Int) ≤ 0) := by
    simpa [canShowMore, updateShowMoreButton] using h
  have hle : s.«matches».length ≤ s.page * s.booksPerPage := by
    have h2 := sub_nonpos.mp h1
    exact_mod_cast h2
  have hnil : s.«matches».drop (s.page * s.booksPerPage) = [] :=
    List.drop_eq_nil_of_le hle
  refine ⟨?_, rfl, rfl, rfl⟩
  show s.displayed ++
      jsSlice s.«matches» (s.page * s.booksPerPage) ((s.page + 1) * s.booksPerPage) =
    s.displayed
  simp [jsSlice, hnil]

theorem showMore_when_exhausted_appends_nothing_witness :
    canShowMore sessionFour = false ∧
    (showMoreBooks sessionFour).displayed = sessionFour.displayed ∧
    (showMoreBooks sessionFour).page = sessionFour.page + 1 :=
  ⟨by decide, (showMore_when_exhausted_appends_nothing sessionFour (by decide)).1,
   (showMore_when_exhausted_appends_nothing sessionFour (by decide)).2.2.2⟩

theorem genreMatch_true_iff (b : Book) (f : Filters) :
    genreMatch b f = true ↔ (f.genre = "any" ∨ f.genre ∈ b.genres) := by
  simp [genreMatch]

theorem titleMatch_true_iff (b : Book) (f : Filters) :
    titleMatch b f = true ↔
      (jsTrim f.title = "" ∨
        ∃ l r, l ++ (jsToLower f.title).data ++ r = (jsToLower b.title).data) := by
  simp [titleMatch, jsIncludes, occursIn_iff]

theorem authorMatch_true_iff (b : Book) (f : Filters) :
    authorMatch b f = true ↔ (f.author = "any" ∨ f.author = b.author) := by
  simp only [authorMatch, Bool.or_eq_true, beq_iff_eq]
  constructor
  · rintro (h | h)
    · exact Or.inl h
    · exact Or.inr h.symm
  · rintro (h | h)
    · exact Or.inl h
    · exact Or.inr h.symm

/-- Claim C3: for every book list and fully-populated criteria object,
`filterBooks` returns exactly the books satisfying the conjunction of the
genre, title and author conditions as the spec words them
(`specCriteriaPred`), as an order-preserving subsequence; and on the
two-book worked scenario with title query "du" it returns exactly Dune. -/
theorem filterBooks_matches_spec_conjunction :
    (∀ (books : List Book) (f : Filters) (b : Book),
        b ∈ filterBooks books f ↔ b ∈ books ∧ specCriteriaPred f b) ∧
    (∀ (books : List Book) (f : Filters), (filterBooks books f).Sublist books) ∧
    filterBooks [dune, hobbit] { title := "du", author := "any", genre := "any" } = [dune] := by
  refine ⟨?_, ?_, by decide⟩
  · intro books f b
    rw [filterBooks, List.mem_filter]
    unfold specCriteriaPred
    constructor
    · rintro ⟨hb, hp⟩
      refine ⟨hb, ?_⟩
      simp only [Bool.and_eq_true] at hp
      obtain ⟨⟨hg, ht⟩, ha⟩ := hp
      exact ⟨(genreMatch_true_iff b f).mp hg, (titleMatch_true_iff b f).mp ht,
        (authorMatch_true_iff b f).mp ha⟩
    · rintro ⟨hb, hg, ht, ha⟩
      refine ⟨hb, ?_⟩
      simp only [Bool.and_eq_true]
      exact ⟨⟨(genreMatch_true_iff b f).mpr hg, (titleMatch_true_iff b f).mpr ht⟩,
        (authorMatch_true_iff b f).mpr ha⟩
  · intro books f
    exact List.filter_sublist _

/-- Claim C9: `findBookById` is a linear scan returning the first book whose
id equals the given id (the head of the filtered list, hence first-match
under duplicate ids), and returns the absent result — never throwing — when
no book has that id, including on the empty list. -/
theorem findBookById_first_match :
    (∀ (books : List Book) (id : String),
        findBookById books id = (books.filter fun b => b.id == id).head?) ∧
    (∀ id : String, findBookById [] id = none) ∧
    (∀ (books : List Book) (id : String),
        (∀ b ∈ books, b.id ≠ id) → findBookById books id = none) := by
  refine ⟨?_, ?_, ?_⟩
  · intro books id
    exact find?_eq_head?_filter _ _
  · intro id
    rfl
  · intro books id h
    rw [findBookById, List.find?_eq_none]
    intro b hb
    simpa using h b hb

theorem findBookById_first_match_witness :
    (∀ b ∈ [dune, hobbit], b.id ≠ "9") ∧ findBookById [dune, hobbit] "9" = none :=
  ⟨by decide, findBookById_first_match.2.2 [dune, hobbit] "9" (by decide)⟩

/-- Claim C10: when the title query does not trim to empty, `filterBooks`
performs the case-insensitive substring test with the untrimmed query; in
particular the query " du " (non-empty core surrounded by whitespace) does
not match the title "Dune". -/
theorem title_query_used_untrimmed (books : List Book) (f : Filters)
    (h : jsTrim f.title ≠ "") :
    filterBooks books f =
      books.filter (fun b =>
        genreMatch b f && jsIncludes (jsToLower b.title) (jsToLower f.title) &&
          authorMatch b f) ∧
    filterBooks [dune] { title := " du ", author := "any", genre := "any" } = [] := by
  refine ⟨?_, by decide⟩
  unfold filterBooks
  apply List.filter_congr
  intro b hb
  have hf : (jsTrim f.title == "") = false := by
    simpa using h
  simp [titleMatch, hf]

theorem title_query_used_untrimmed_witness :
    jsTrim " du " ≠ "" ∧
    filterBooks [dune] { title := " du ", author := "any", genre := "any" } = [] :=
  ⟨by decide,
   (title_query_used_untrimmed [dune] { title := " du ", author := "any", genre := "any" }
     (by decide)).2⟩

/-- Claim C1 (code bug): with a criteria object whose title field is absent,
`filterBooks` evaluates `filters.title.trim()` on undefined and throws a
TypeError on the first book of any non-empty list instead of defaulting the
field; with all three fields present it agrees with the total filter. -/
theorem filterBooks_missing_title_throws :
    filterBooksOpt [dune] { title := none, author := some "any", genre := some "any" } =
      Except.error "TypeError: undefined has no method trim" ∧
    (∀ (books : List Book) (t a g : String),
        filterBooksOpt books { title := some t, author := some a, genre := some g } =
          Except.ok (filterBooks books { title := t, author := a, genre := g })) := by
  refine ⟨rfl, ?_⟩
  intro books t a g
  induction books with
  | nil => rfl
  | cons b rest ih =>
    simp only [filterBooksOpt, bookPredOpt, titleMatchOpt, genreMatchOpt, authorMatchOpt,
      Bind.bind, Except.bind, pure, Except.pure, ih, filterBooks, List.filter_cons,
      genreMatch, titleMatch, authorMatch]

end BookCatalog
